import Mathlib

/-!
Verification development for the mini-dsers order-fulfillment backend.

The definitions below are a shallow embedding of the route handlers in
src/src/index.ts and of the manufacturer client library
(sendOrderToManufacturer / verifyManufacturerSignature).  The prisma
database is modelled as an explicit `Store` value threaded through each
handler; external collaborators (the Stripe SDK, the HTTP call to the
manufacturer, HMAC-SHA256, JSON.parse) are modelled as function
parameters or response oracles, so that every handler is a pure,
executable Lean function.  A thrown JavaScript exception is modelled by
`Except.error`; partial database writes performed before a throw are
kept, exactly as in the source (each prisma call commits on its own).
-/

/-- Lifecycle states of an order, from the prisma `OrderStatus` enum used by
the handlers (`PENDING`, `PAID`, `SENT_TO_SUPPLIER`, `FULFILLMENT_ACCEPTED`,
`SHIPPED`). -/
inductive OrderStatus where
  | PENDING
  | PAID
  | SENT_TO_SUPPLIER
  | FULFILLMENT_ACCEPTED
  | SHIPPED
deriving Repr, DecidableEq

/-- One `lineItems` row: product reference, quantity and the unit price
snapshot written at checkout time. -/
structure LineItem where
  productId : String
  quantity : Int
  unitPriceCents : Int
deriving Repr, DecidableEq

/-- One catalog product row (`prisma.product`). -/
structure Product where
  id : String
  title : String
  sku : String
  priceCents : Int
  currency : String
  active : Bool
deriving Repr, DecidableEq

/-- One `prisma.order` row, with the columns the handlers read or write. -/
structure Order where
  id : String
  email : String
  amountCents : Int
  currency : String
  status : OrderStatus
  stripeSessionId : Option String := none
  stripePaymentIntentId : Option String := none
  fulfillmentId : Option String := none
  trackingNumber : Option String := none
  lineItems : List LineItem := []
deriving Repr, DecidableEq

/-- One `prisma.paymentEvent` audit row (the raw payload column is elided;
the fields the handler writes are the event type and the correlated order
id). -/
structure PaymentEvent where
  type : String
  orderId : Option String
deriving Repr, DecidableEq

/-- The mutable database state: the `order` table (with its nested line
items) and the append-only `paymentEvent` table. -/
structure Store where
  orders : List Order
  paymentEvents : List PaymentEvent
deriving Repr, DecidableEq

/-- The `prisma.order.findUnique({where:{id}})` lookup. -/
def findOrder (st : Store) (oid : String) : Option Order :=
  st.orders.find? (fun o => o.id == oid)

/-- The `prisma.order.update({where:{id}, data})` call: it rewrites the
matching row, and throws (`P2025`, modelled as `Except.error`) when no row
has the given id. -/
def updateOrderById (st : Store) (oid : String) (f : Order → Order) :
    Except Unit Store :=
  if st.orders.any (fun o => o.id == oid) then
    .ok { st with orders := st.orders.map (fun o => if o.id == oid then f o else o) }
  else
    .error ()

/-- Prisma update-data semantics for a single column: a JavaScript
`undefined` value (`none`) leaves the column unchanged, a present value
overwrites it. -/
def setIfPresent (old incoming : Option String) : Option String :=
  match incoming with
  | none => old
  | some v => some v

/-! ## Stripe webhook (POST /webhooks/stripe) -/

/-- The fields of `event.data.object` (a Stripe checkout session) that the
webhook handler reads: `metadata?.orderId`, `payment_intent`,
`shipping_details?.address` (collapsed to a presence flag plus the address
fields) and `customer_details?.name`. -/
structure SessionObj where
  metadataOrderId : Option String
  paymentIntent : Option String
  shippingLine1 : Option String := none
  shippingLine2 : Option String := none
  shippingCity : Option String := none
  shippingPostalCode : Option String := none
  shippingCountry : Option String := none
  hasShippingAddress : Bool := false
  customerName : Option String := none
deriving Repr, DecidableEq

/-- A verified Stripe event as returned by
`stripe.webhooks.constructEvent`: its `type` and its `data.object`. -/
structure StripeEvent where
  type : String
  obj : SessionObj
deriving Repr, DecidableEq

/-- One item of the fulfillment payload sent to the manufacturer
(`{sku, quantity}`). -/
structure FulfillItem where
  sku : String
  quantity : Int
deriving Repr, DecidableEq

/-- The shipping address block of the fulfillment payload. -/
structure ShippingAddress where
  name : String
  address1 : String
  address2 : Option String := none
  city : String
  postalCode : String
  country : String
deriving Repr, DecidableEq

/-- The payload of `sendOrderToManufacturer`. -/
structure FulfillPayload where
  orderId : String
  email : String
  items : List FulfillItem
  shippingAddress : ShippingAddress
  notifyUrl : String
deriving Repr, DecidableEq

/-- The manufacturer API response (`{fulfillmentId}`). -/
structure ManufOk where
  fulfillmentId : String
deriving Repr, DecidableEq

deriving instance DecidableEq for Except

/-- Response oracle for the external `sendOrderToManufacturer` HTTP call:
the next list element is the outcome of the next call (`.error` is a
network failure, timeout or non-2xx response, which axios raises as an
exception). An exhausted oracle behaves as a failure. -/
abbrev ManufOracle := List (Except String ManufOk)

/-- Consume one response from the manufacturer oracle. -/
def callManufacturer (oracle : ManufOracle) :
    Except String ManufOk × ManufOracle :=
  match oracle with
  | [] => (.error "unreachable", [])
  | r :: rest => (r, rest)

/-- The shipping-address block the handler builds: the session address when
`session.shipping_details?.address` is present, otherwise
empty-but-present fields. -/
def shippingOf (obj : SessionObj) : ShippingAddress :=
  if obj.hasShippingAddress then
    { name := obj.customerName.getD ""
      address1 := (obj.shippingLine1).getD ""
      address2 := obj.shippingLine2
      city := (obj.shippingCity).getD ""
      postalCode := (obj.shippingPostalCode).getD ""
      country := (obj.shippingCountry).getD "" }
  else
    { name := "", address1 := "", city := "", postalCode := "", country := "" }

/-- The `order.lineItems.map(li => ({sku: li.product.sku, quantity}))`
projection.  The handler fetched the order with
`include: { lineItems: { include: { product: true } } }`; when a line item
references a product id missing from the catalog, `li.product` is null and
reading `.sku` throws a TypeError, modelled as `Except.error`. -/
def buildFulfillItems (catalog : List Product) :
    List LineItem → Except Unit (List FulfillItem)
  | [] => .ok []
  | li :: rest =>
    match catalog.find? (fun p => p.id == li.productId) with
    | none => .error ()
    | some p => do
      let tail ← buildFulfillItems catalog rest
      .ok ({ sku := p.sku, quantity := li.quantity } :: tail)

/-- The fulfillment payload constructed in the webhook handler. -/
def buildPayload (baseUrl : String) (catalog : List Product) (order : Order)
    (obj : SessionObj) : Except Unit FulfillPayload := do
  let items ← buildFulfillItems catalog order.lineItems
  .ok { orderId := order.id
        email := order.email
        items := items
        shippingAddress := shippingOf obj
        notifyUrl := baseUrl ++ "/webhooks/manufacturer" }

/-- The update data of the first `prisma.order.update` in the Stripe
webhook: `status: "PAID", stripePaymentIntentId: session.payment_intent`. -/
def markPaid (paymentIntent : Option String) (o : Order) : Order :=
  { o with status := .PAID
           stripePaymentIntentId := setIfPresent o.stripePaymentIntentId paymentIntent }

/-- The update data of the second `prisma.order.update` in the Stripe
webhook: `status: "SENT_TO_SUPPLIER", fulfillmentId`. -/
def markSent (fid : String) (o : Order) : Order :=
  { o with status := .SENT_TO_SUPPLIER, fulfillmentId := some fid }

/-- The `prisma.paymentEvent.create` call at the end of the try block. -/
def appendAudit (st : Store) (ev : StripeEvent) : Store :=
  { st with paymentEvents :=
      st.paymentEvents ++ [{ type := ev.type, orderId := ev.obj.metadataOrderId }] }

/-- Result of running the try block of the Stripe webhook handler: the
store after every write that committed, the remaining manufacturer oracle
(its consumed prefix counts the fulfillment-push attempts made), and
whether the block threw (reaching the catch, which only logs). -/
structure StripeOutcome where
  store : Store
  oracle : ManufOracle
  threw : Bool
deriving Repr, DecidableEq

/-- The try block of the `POST /webhooks/stripe` handler (after signature
verification), translated match-for-match from the source: on
`checkout.session.completed` with a truthy `metadata.orderId` it blindly
updates the order to `PAID`, refetches it, builds the fulfillment payload,
calls the manufacturer, updates to `SENT_TO_SUPPLIER` with the returned
fulfillment id, and finally appends one `paymentEvent` row; any throw on
the way skips the remaining steps (including the audit append) and is
swallowed by the catch. -/
def stripeTryBlock (baseUrl : String) (catalog : List Product)
    (event : StripeEvent) (st : Store) (oracle : ManufOracle) : StripeOutcome :=
  if event.type == "checkout.session.completed" then
    match event.obj.metadataOrderId with
    | some orderId =>
      if orderId == "" then
        { store := appendAudit st event, oracle := oracle, threw := false }
      else
        match updateOrderById st orderId (markPaid event.obj.paymentIntent) with
        | .error _ => { store := st, oracle := oracle, threw := true }
        | .ok st1 =>
          match findOrder st1 orderId with
          | none =>
            { store := appendAudit st1 event, oracle := oracle, threw := false }
          | some order =>
            match buildPayload baseUrl catalog order event.obj with
            | .error _ => { store := st1, oracle := oracle, threw := true }
            | .ok _payload =>
              match callManufacturer oracle with
              | (.error _, rest) =>
                { store := st1, oracle := rest, threw := true }
              | (.ok m, rest) =>
                match updateOrderById st1 order.id (markSent m.fulfillmentId) with
                | .error _ => { store := st1, oracle := rest, threw := true }
                | .ok st2 =>
                  { store := appendAudit st2 event, oracle := rest, threw := false }
    | none => { store := appendAudit st event, oracle := oracle, threw := false }
  else
    { store := appendAudit st event, oracle := oracle, threw := false }

/-- HTTP responses of the Stripe webhook route. -/
inductive StripeResp where
  | secretUnset500
  | sigError400
  | received200
deriving Repr, DecidableEq

/-- Result of a full Stripe webhook delivery. -/
structure HookResult where
  store : Store
  oracle : ManufOracle
  resp : StripeResp
deriving Repr, DecidableEq

/-- Processing of one signature-verified Stripe event delivery: the try
block runs, the catch only logs, and the route always answers
`200 {received:true}`. -/
def stripeWebhookProcess (baseUrl : String) (catalog : List Product)
    (event : StripeEvent) (st : Store) (oracle : ManufOracle) : HookResult :=
  let out := stripeTryBlock baseUrl catalog event st oracle
  { store := out.store, oracle := out.oracle, resp := .received200 }

/-- The full `POST /webhooks/stripe` route: a falsy
`STRIPE_WEBHOOK_SECRET` gives a 500, a failing
`stripe.webhooks.constructEvent` (modelled as the external parameter
`construct`) gives a 400 with no state change, and a verified event is
processed as in `stripeWebhookProcess`. -/
def stripeWebhookHandler (baseUrl : String) (catalog : List Product)
    (secret : Option String)
    (construct : String → Option String → String → Except String StripeEvent)
    (rawBody : String) (sig : Option String)
    (st : Store) (oracle : ManufOracle) : HookResult :=
  match secret with
  | none => { store := st, oracle := oracle, resp := .secretUnset500 }
  | some sec =>
    if sec == "" then { store := st, oracle := oracle, resp := .secretUnset500 }
    else
      match construct rawBody sig sec with
      | .error _ => { store := st, oracle := oracle, resp := .sigError400 }
      | .ok event => stripeWebhookProcess baseUrl catalog event st oracle

/-! ## Manufacturer webhook (POST /webhooks/manufacturer) -/

/-- The `verifyManufacturerSignature(rawBody, signature)` function of the
manufacturer library.  A falsy secret (unset or empty
`MANUFACTURER_WEBHOOK_SECRET`) or a falsy signature header returns false.
Otherwise the hex HMAC-SHA256 digest of the body (the external `hmacHex`
parameter, keyed by the secret) is compared with the header by
`crypto.timingSafeEqual`, which throws a RangeError (modelled as
`Except.error`) when the two buffers have different byte lengths and
otherwise reports byte equality. -/
def verifyManufacturerSignature (hmacHex : String → String → String)
    (secret : Option String) (rawBody : String) (signature : Option String) :
    Except Unit Bool :=
  match secret with
  | none => .ok false
  | some s =>
    if s == "" then .ok false
    else
      match signature with
      | none => .ok false
      | some sig =>
        if sig == "" then .ok false
        else
          let digest := hmacHex s rawBody
          if digest.utf8ByteSize = sig.utf8ByteSize then .ok (digest == sig)
          else .error ()

/-- The typed manufacturer event obtained from `JSON.parse`:
`{type, fulfillmentId, trackingNumber}`, each possibly absent. -/
structure ManufEvent where
  type : String
  fulfillmentId : Option String := none
  trackingNumber : Option String := none
deriving Repr, DecidableEq

/-- The `where: { fulfillmentId: event.fulfillmentId }` filter of the
`updateMany` calls.  Prisma ignores a filter whose value is the JavaScript
`undefined`, so an event without a fulfillmentId matches every row. -/
def fulfillmentFilter (fid : Option String) (o : Order) : Bool :=
  match fid with
  | none => true
  | some f => o.fulfillmentId == some f

/-- The `prisma.order.updateMany` call of the manufacturer webhook. -/
def updateManyByFulfillment (st : Store) (fid : Option String)
    (f : Order → Order) : Store :=
  { st with orders := st.orders.map (fun o => if fulfillmentFilter fid o then f o else o) }

/-- Update data of the `FULFILLMENT_ACCEPTED` branch. -/
def markAccepted (o : Order) : Order :=
  { o with status := .FULFILLMENT_ACCEPTED }

/-- Update data of the `SHIPPED` branch: status `SHIPPED` plus the tracking
number carried by the event (left unchanged when the event has none). -/
def markShipped (trackingNumber : Option String) (o : Order) : Order :=
  { o with status := .SHIPPED
           trackingNumber := setIfPresent o.trackingNumber trackingNumber }

/-- HTTP responses of the manufacturer webhook route. -/
inductive ManufResp where
  | invalidSig400
  | ok200
deriving Repr, DecidableEq

/-- The `POST /webhooks/manufacturer` route: verify the `X-Signature`
header (a verification throw propagates), answer 400 on a bad signature,
otherwise `JSON.parse` the raw body (a parse failure throws, modelled by
the external `parseJson` parameter returning `none`), apply the
`FULFILLMENT_ACCEPTED` / `SHIPPED` updates, and answer `200 {ok:true}`. -/
def manufacturerWebhook (hmacHex : String → String → String)
    (secret : Option String) (parseJson : String → Option ManufEvent)
    (rawBody : String) (signature : Option String) (st : Store) :
    Except Unit (Store × ManufResp) :=
  match verifyManufacturerSignature hmacHex secret rawBody signature with
  | .error e => .error e
  | .ok false => .ok (st, .invalidSig400)
  | .ok true =>
    match parseJson rawBody with
    | none => .error ()
    | some event =>
      let st1 :=
        if event.type == "FULFILLMENT_ACCEPTED" then
          updateManyByFulfillment st event.fulfillmentId markAccepted
        else if event.type == "SHIPPED" then
          updateManyByFulfillment st event.fulfillmentId (markShipped event.trackingNumber)
        else st
      .ok (st1, .ok200)

/-! ## Checkout (POST /checkout) -/

/-- One cart entry of the request body (`{productId, quantity}`). -/
structure CartItem where
  productId : String
  quantity : Int
deriving Repr, DecidableEq

/-- One element of the Stripe `line_items` array built in the checkout
loop (`price_data` plus quantity). -/
structure StripeCheckoutLine where
  currency : String
  productName : String
  unitAmount : Int
  quantity : Int
deriving Repr, DecidableEq

/-- The Stripe checkout session request assembled by the handler. -/
structure StripeSessionRequest where
  customerEmail : String
  lineItems : List StripeCheckoutLine
  metadataOrderId : String
  successUrl : String
  cancelUrl : String
deriving Repr, DecidableEq

/-- The Stripe checkout session returned by the gateway (`{id, url}`). -/
structure StripeSession where
  id : String
  url : Option String
deriving Repr, DecidableEq

/-- The `prisma.product.findMany({where:{id:{in: ids}}})` lookup of the
checkout handler. -/
def findManyByIds (catalog : List Product) (ids : List String) : List Product :=
  catalog.filter (fun p => ids.contains p.id)

/-- The running total of the checkout loop:
`amountCents += product.priceCents * i.quantity`, with cart entries whose
productId resolves to no fetched product skipped by `continue`. -/
def checkoutAmount (dbItems : List Product) (items : List CartItem) : Int :=
  items.foldl
    (fun acc i =>
      match dbItems.find? (fun p => p.id == i.productId) with
      | none => acc
      | some p => acc + p.priceCents * i.quantity)
    0

/-- The Stripe `line_items` accumulated by the checkout loop: one entry per
resolvable cart item, in order, unresolvable entries skipped. -/
def checkoutStripeLines (dbItems : List Product) (items : List CartItem) :
    List StripeCheckoutLine :=
  items.filterMap (fun i =>
    (dbItems.find? (fun p => p.id == i.productId)).map (fun p =>
      { currency := p.currency
        productName := p.title
        unitAmount := p.priceCents
        quantity := i.quantity }))

/-- The nested `lineItems: { create: items.map(...) }` of
`prisma.order.create`: one row per input cart item — including
unresolvable ones — with
`unitPriceCents: dbItems.find(...)?.priceCents || 0`. -/
def checkoutLineItems (dbItems : List Product) (items : List CartItem) :
    List LineItem :=
  items.map (fun i =>
    { productId := i.productId
      quantity := i.quantity
      unitPriceCents :=
        ((dbItems.find? (fun p => p.id == i.productId)).map Product.priceCents).getD 0 })

/-- Modelled from the spec: the prisma schema file (not under src/) is
what supplies the `status` default of a newly created order row; the spec
states orders are created in the initial `PENDING` state. -/
def orderCreateDefaultStatus : OrderStatus := .PENDING

/-- HTTP responses of the checkout route. -/
inductive CheckoutResp where
  | noItems400
  | failed500
  | sessionCreated (sessionId : String) (url : Option String)
deriving Repr, DecidableEq

/-- The `POST /checkout` handler: 400 when `items` is missing or empty;
otherwise fetch the referenced products, accumulate the total and the
Stripe line items over the resolvable entries, persist the order with a
line-item row for every input entry, call the external session gateway
(`stripeCreate`), store the session id on the order, and answer with the
session id and url; any gateway or update throw is caught and answered
with a 500 — the already-created order row stays. -/
def checkout (baseUrl : String) (catalog : List Product)
    (stripeCreate : StripeSessionRequest → Except String StripeSession)
    (newOrderId : String) (email : String)
    (items : Option (List CartItem)) (st : Store) : Store × CheckoutResp :=
  match items with
  | none => (st, .noItems400)
  | some itemsL =>
    if itemsL.isEmpty then (st, .noItems400)
    else
      let dbItems := findManyByIds catalog (itemsL.map CartItem.productId)
      let amountCents := checkoutAmount dbItems itemsL
      let order : Order :=
        { id := newOrderId
          email := email
          amountCents := amountCents
          currency := "eur"
          status := orderCreateDefaultStatus
          lineItems := checkoutLineItems dbItems itemsL }
      let st1 := { st with orders := st.orders ++ [order] }
      let req : StripeSessionRequest :=
        { customerEmail := email
          lineItems := checkoutStripeLines dbItems itemsL
          metadataOrderId := newOrderId
          successUrl := baseUrl ++ "/success.html?orderId=" ++ newOrderId
          cancelUrl := baseUrl ++ "/cancel.html?orderId=" ++ newOrderId }
      match stripeCreate req with
      | .error _ => (st1, .failed500)
      | .ok session =>
        match updateOrderById st1 newOrderId
            (fun o => { o with stripeSessionId := some session.id }) with
        | .error _ => (st1, .failed500)
        | .ok st2 => (st2, .sessionCreated session.id session.url)

/-! ## Delivery sequences -/

/-- One inbound webhook delivery: either a verified Stripe payment event or
a raw manufacturer webhook request. -/
inductive Delivery where
  | payment (event : StripeEvent)
  | manufacturer (rawBody : String) (signature : Option String)

/-- The fixed collaborators of the running service: public base url,
product catalog, the HMAC primitive, the manufacturer webhook secret and
the JSON parser. -/
structure Env where
  baseUrl : String
  catalog : List Product
  hmacHex : String → String → String
  manufSecret : Option String
  parseJson : String → Option ManufEvent

/-- Apply one delivery to the store (threading the manufacturer response
oracle).  A manufacturer-webhook throw leaves the store unchanged, exactly
as in the source, where the throw happens before any update. -/
def deliverOne (env : Env) (d : Delivery) (s : Store × ManufOracle) :
    Store × ManufOracle :=
  match d with
  | .payment ev =>
    let out := stripeTryBlock env.baseUrl env.catalog ev s.1 s.2
    (out.store, out.oracle)
  | .manufacturer body sig =>
    match manufacturerWebhook env.hmacHex env.manufSecret env.parseJson body sig s.1 with
    | .error _ => s
    | .ok (st1, _) => (st1, s.2)

/-- Apply a sequence of deliveries in order. -/
def deliverAll (env : Env) (ds : List Delivery) (s : Store × ManufOracle) :
    Store × ManufOracle :=
  ds.foldl (fun acc d => deliverOne env d acc) s

/-! ## Spec-side definitions (for refinement comparison) -/

/-- Spec-side total, following the words of the spec: the sum of snapshot
unit prices times quantities over the cart items whose productId resolves
in the catalog (unresolvable ids excluded). -/
def specResolvedTotal (catalog : List Product) (items : List CartItem) : Int :=
  (items.filterMap (fun i =>
    (catalog.find? (fun p => p.id == i.productId)).map
      (fun p => p.priceCents * i.quantity))).sum

/-! ## Helper lemmas -/

theorem updateOrderById_eq_ok {st : Store} {oid : String} {f : Order → Order}
    {st1 : Store} (h : updateOrderById st oid f = .ok st1) :
    st1 = { st with orders := st.orders.map (fun x => if x.id == oid then f x else x) } := by
  unfold updateOrderById at h
  split at h
  · injection h with h2
    exact h2.symm
  · exact absurd h (by simp)

theorem updateOrderById_of_found {st : Store} {oid : String} {o : Order}
    (h : findOrder st oid = some o) (f : Order → Order) :
    updateOrderById st oid f
      = .ok { st with orders := st.orders.map (fun x => if x.id == oid then f x else x) } := by
  unfold updateOrderById
  have hmem := List.mem_of_find?_eq_some h
  have hp := List.find?_some h
  rw [if_pos (List.any_eq_true.mpr ⟨o, hmem, hp⟩)]

theorem findOrder_map_guard {st : Store} {oid : String} {o : Order}
    (f : Order → Order) (hid : ∀ x, (f x).id = x.id)
    (h : findOrder st oid = some o) :
    findOrder { st with orders := st.orders.map (fun x => if x.id == oid then f x else x) } oid
      = some (f o) := by
  unfold findOrder at *
  have hpred : (fun x : Order => x.id == oid) ∘ (fun x => if x.id == oid then f x else x)
      = fun x : Order => x.id == oid := by
    funext x
    simp only [Function.comp_apply]
    by_cases hx : (x.id == oid) = true
    · rw [if_pos hx, hid, hx]
    · rw [if_neg hx]
  rw [List.find?_map, hpred, h]
  have hp := List.find?_some h
  show some (if (o.id == oid) = true then f o else o) = some (f o)
  rw [if_pos hp]

theorem callManufacturer_ok {oracle : ManufOracle} {m : ManufOk} {rest : ManufOracle}
    (h : callManufacturer oracle = (.ok m, rest)) : oracle = .ok m :: rest := by
  cases oracle with
  | nil => exact absurd h (by simp [callManufacturer])
  | cons r t =>
    unfold callManufacturer at h
    obtain ⟨h1, h2⟩ := Prod.mk.injEq .. |>.mp h
    rw [h1, h2]

theorem pending_mem_map_guard {l : List Order} {q : Order → Bool} {f : Order → Order}
    (hf : ∀ x, (f x).status ≠ .PENDING) :
    ∀ o1 ∈ l.map (fun x => if q x then f x else x), o1.status = .PENDING → o1 ∈ l := by
  intro o1 h1 hp
  rcases List.mem_map.mp h1 with ⟨x, hx, rfl⟩
  by_cases hq : q x
  · rw [if_pos hq] at hp
    exact absurd hp (hf x)
  · rwa [if_neg hq]

theorem fid_mem_map_guard {l : List Order} {q : Order → Bool} {f : Order → Order}
    (o1 : Order) (h1 : o1 ∈ l.map (fun x => if q x then f x else x))
    (hid : ∀ x, (f x).id = x.id) (hfid : ∀ x, (f x).fulfillmentId = x.fulfillmentId) :
    ∃ o ∈ l, o1.id = o.id ∧ o1.fulfillmentId = o.fulfillmentId := by
  rcases List.mem_map.mp h1 with ⟨x, hx, rfl⟩
  by_cases hq : q x
  · exact ⟨x, hx, by rw [if_pos hq]; exact hid x, by rw [if_pos hq]; exact hfid x⟩
  · exact ⟨x, hx, by rw [if_neg hq], by rw [if_neg hq]⟩

theorem stripeTryBlock_pending (b : String) (c : List Product) (ev : StripeEvent)
    (st : Store) (oracle : ManufOracle) :
    ∀ o1 ∈ (stripeTryBlock b c ev st oracle).store.orders,
      o1.status = .PENDING → o1 ∈ st.orders := by
  intro o1 h1 hp
  unfold stripeTryBlock at h1
  split at h1
  case isTrue =>
    split at h1
    case h_1 orderId heq =>
      split at h1
      case isTrue => simpa [appendAudit] using h1
      case isFalse =>
        split at h1
        case h_1 => simpa using h1
        case h_2 st1 hupd =>
          have hst1 := updateOrderById_eq_ok hupd
          subst hst1
          split at h1
          case h_1 =>
            simp only [appendAudit] at h1
            exact pending_mem_map_guard (fun x => by simp [markPaid]) o1 h1 hp
          case h_2 order hford =>
            split at h1
            case h_1 =>
              exact pending_mem_map_guard (fun x => by simp [markPaid]) o1 h1 hp
            case h_2 =>
              split at h1
              case h_1 =>
                exact pending_mem_map_guard (fun x => by simp [markPaid]) o1 h1 hp
              case h_2 m rest hcall =>
                split at h1
                case h_1 =>
                  exact pending_mem_map_guard (fun x => by simp [markPaid]) o1 h1 hp
                case h_2 st2 hupd2 =>
                  have hst2 := updateOrderById_eq_ok hupd2
                  subst hst2
                  simp only [appendAudit] at h1
                  have h2 := pending_mem_map_guard (fun x => by simp [markSent]) o1 h1 hp
                  exact pending_mem_map_guard (fun x => by simp [markPaid]) o1 h2 hp
    case h_2 => simpa [appendAudit] using h1
  case isFalse => simpa [appendAudit] using h1

theorem manufacturerWebhook_pending (h : String → String → String)
    (sec : Option String) (pj : String → Option ManufEvent)
    (body : String) (sig : Option String) (st : Store) (st1 : Store) (r : ManufResp)
    (hok : manufacturerWebhook h sec pj body sig st = .ok (st1, r)) :
    ∀ o1 ∈ st1.orders, o1.status = .PENDING → o1 ∈ st.orders := by
  intro o1 h1 hp
  unfold manufacturerWebhook at hok
  split at hok
  case h_1 => exact absurd hok (by simp)
  case h_2 =>
    injection hok with hok
    obtain ⟨hst, _⟩ := Prod.mk.injEq .. |>.mp hok
    subst hst
    exact h1
  case h_3 =>
    split at hok
    case h_1 => exact absurd hok (by simp)
    case h_2 event hev =>
      injection hok with hok
      obtain ⟨hst, _⟩ := Prod.mk.injEq .. |>.mp hok
      subst hst
      by_cases hacc : (event.type == "FULFILLMENT_ACCEPTED") = true
      · rw [if_pos hacc] at h1
        exact pending_mem_map_guard (fun x => by simp [markAccepted]) o1 h1 hp
      · rw [if_neg hacc] at h1
        by_cases hsh : (event.type == "SHIPPED") = true
        · rw [if_pos hsh] at h1
          exact pending_mem_map_guard (fun x => by simp [markShipped]) o1 h1 hp
        · rw [if_neg hsh] at h1
          exact h1

theorem deliverOne_pending (env : Env) (d : Delivery) (s : Store × ManufOracle) :
    ∀ o1 ∈ (deliverOne env d s).1.orders, o1.status = .PENDING → o1 ∈ s.1.orders := by
  intro o1 h1 hp
  cases d with
  | payment ev =>
    simp only [deliverOne] at h1
    exact stripeTryBlock_pending env.baseUrl env.catalog ev s.1 s.2 o1 h1 hp
  | manufacturer body sig =>
    simp only [deliverOne] at h1
    split at h1
    case h_1 => exact h1
    case h_2 st1 r hok => exact manufacturerWebhook_pending _ _ _ _ _ _ _ _ hok o1 h1 hp

theorem deliverAll_pending (env : Env) (ds : List Delivery) (s : Store × ManufOracle) :
    ∀ o1 ∈ (deliverAll env ds s).1.orders, o1.status = .PENDING → o1 ∈ s.1.orders := by
  induction ds generalizing s with
  | nil => intro o1 h1 _; exact h1
  | cons d t ih =>
    intro o1 h1 hp
    have step : deliverAll env (d :: t) s = deliverAll env t (deliverOne env d s) := rfl
    rw [step] at h1
    exact deliverOne_pending env d s o1 (ih (deliverOne env d s) o1 h1 hp) hp

theorem stripeTryBlock_fid (b : String) (c : List Product) (ev : StripeEvent)
    (st : Store) (oracle : ManufOracle) :
    ∀ o1 ∈ (stripeTryBlock b c ev st oracle).store.orders,
      ∃ o ∈ st.orders, o1.id = o.id ∧
        (o1.fulfillmentId = o.fulfillmentId ∨
         (o1.status = .SENT_TO_SUPPLIER ∧
          ∃ m rest, oracle = .ok m :: rest ∧ o1.fulfillmentId = some m.fulfillmentId)) := by
  intro o1 h1
  unfold stripeTryBlock at h1
  split at h1
  case isTrue =>
    split at h1
    case h_1 orderId heq =>
      split at h1
      case isTrue => exact ⟨o1, by simpa [appendAudit] using h1, rfl, .inl rfl⟩
      case isFalse =>
        split at h1
        case h_1 => exact ⟨o1, by simpa using h1, rfl, .inl rfl⟩
        case h_2 st1 hupd =>
          have hst1 := updateOrderById_eq_ok hupd
          subst hst1
          split at h1
          case h_1 =>
            simp only [appendAudit] at h1
            obtain ⟨o, ho, hid2, hfid2⟩ :=
              fid_mem_map_guard o1 h1 (fun x => rfl) (fun x => rfl)
            exact ⟨o, ho, hid2, .inl hfid2⟩
          case h_2 order hford =>
            split at h1
            case h_1 =>
              obtain ⟨o, ho, hid2, hfid2⟩ :=
                fid_mem_map_guard o1 h1 (fun x => rfl) (fun x => rfl)
              exact ⟨o, ho, hid2, .inl hfid2⟩
            case h_2 =>
              split at h1
              case h_1 =>
                obtain ⟨o, ho, hid2, hfid2⟩ :=
                  fid_mem_map_guard o1 h1 (fun x => rfl) (fun x => rfl)
                exact ⟨o, ho, hid2, .inl hfid2⟩
              case h_2 m rest hcall =>
                split at h1
                case h_1 =>
                  obtain ⟨o, ho, hid2, hfid2⟩ :=
                    fid_mem_map_guard o1 h1 (fun x => rfl) (fun x => rfl)
                  exact ⟨o, ho, hid2, .inl hfid2⟩
                case h_2 st2 hupd2 =>
                  have hst2 := updateOrderById_eq_ok hupd2
                  subst hst2
                  simp only [appendAudit] at h1
                  have horacle := callManufacturer_ok hcall
                  rcases List.mem_map.mp h1 with ⟨y, hy, rfl⟩
                  obtain ⟨o, ho, hid2, hfid2⟩ :=
                    fid_mem_map_guard y hy (fun x => rfl) (fun x => rfl)
                  by_cases hq : (y.id == order.id) = true
                  · rw [if_pos hq]
                    exact ⟨o, ho, hid2, .inr ⟨rfl, m, rest, horacle, rfl⟩⟩
                  · rw [if_neg hq]
                    exact ⟨o, ho, hid2, .inl hfid2⟩
    case h_2 => exact ⟨o1, by simpa [appendAudit] using h1, rfl, .inl rfl⟩
  case isFalse => exact ⟨o1, by simpa [appendAudit] using h1, rfl, .inl rfl⟩

theorem manufacturerWebhook_fid (h : String → String → String)
    (sec : Option String) (pj : String → Option ManufEvent)
    (body : String) (sig : Option String) (st : Store) (st1 : Store) (r : ManufResp)
    (hok : manufacturerWebhook h sec pj body sig st = .ok (st1, r)) :
    ∀ o1 ∈ st1.orders, ∃ o ∈ st.orders, o1.id = o.id ∧
      o1.fulfillmentId = o.fulfillmentId := by
  intro o1 h1
  unfold manufacturerWebhook at hok
  split at hok
  case h_1 => exact absurd hok (by simp)
  case h_2 =>
    injection hok with hok
    obtain ⟨hst, _⟩ := Prod.mk.injEq .. |>.mp hok
    subst hst
    exact ⟨o1, h1, rfl, rfl⟩
  case h_3 =>
    split at hok
    case h_1 => exact absurd hok (by simp)
    case h_2 event hev =>
      injection hok with hok
      obtain ⟨hst, _⟩ := Prod.mk.injEq .. |>.mp hok
      subst hst
      by_cases hacc : (event.type == "FULFILLMENT_ACCEPTED") = true
      · rw [if_pos hacc] at h1
        exact fid_mem_map_guard o1 h1 (fun x => rfl) (fun x => rfl)
      · rw [if_neg hacc] at h1
        by_cases hsh : (event.type == "SHIPPED") = true
        · rw [if_pos hsh] at h1
          exact fid_mem_map_guard o1 h1 (fun x => rfl) (fun x => rfl)
        · rw [if_neg hsh] at h1
          exact ⟨o1, h1, rfl, rfl⟩

theorem checkoutAmount_foldl (db : List Product) (items : List CartItem) :
    ∀ acc : Int,
      items.foldl
        (fun acc i =>
          match db.find? (fun p => p.id == i.productId) with
          | none => acc
          | some p => acc + p.priceCents * i.quantity) acc
      = acc + (items.map (fun i =>
          match db.find? (fun p => p.id == i.productId) with
          | none => 0
          | some p => p.priceCents * i.quantity)).sum := by
  induction items with
  | nil => intro acc; simp
  | cons i t ih =>
    intro acc
    rw [List.foldl_cons, List.map_cons, List.sum_cons, ih]
    cases hfind : db.find? (fun p => p.id == i.productId) with
    | none => simp [hfind]
    | some p => simp only [hfind]; ring

theorem checkoutAmount_eq_mapSum (db : List Product) (items : List CartItem) :
    checkoutAmount db items
      = (items.map (fun i =>
          match db.find? (fun p => p.id == i.productId) with
          | none => 0
          | some p => p.priceCents * i.quantity)).sum := by
  unfold checkoutAmount
  rw [checkoutAmount_foldl]
  simp

theorem specResolvedTotal_eq_mapSum (catalog : List Product) (items : List CartItem) :
    specResolvedTotal catalog items
      = (items.map (fun i =>
          match catalog.find? (fun p => p.id == i.productId) with
          | none => 0
          | some p => p.priceCents * i.quantity)).sum := by
  unfold specResolvedTotal
  induction items with
  | nil => rfl
  | cons i t ih =>
    rw [List.map_cons, List.sum_cons]
    cases hfind : catalog.find? (fun p => p.id == i.productId) with
    | none => simp [List.filterMap_cons, hfind, ih]
    | some p => simp [List.filterMap_cons, hfind, ih]

theorem find?_cons_pos {α : Type} (pr : α → Bool) (a : α) (l : List α)
    (h : pr a = true) : (a :: l).find? pr = some a := by
  simp [List.find?_cons, h]

theorem find?_cons_neg {α : Type} (pr : α → Bool) (a : α) (l : List α)
    (h : pr a = false) : (a :: l).find? pr = l.find? pr := by
  simp [List.find?_cons, h]

theorem find?_findManyByIds (catalog : List Product) (ids : List String)
    (pid : String) (hmem : pid ∈ ids) :
    (findManyByIds catalog ids).find? (fun p => p.id == pid)
      = catalog.find? (fun p => p.id == pid) := by
  unfold findManyByIds
  induction catalog with
  | nil => rfl
  | cons p t ih =>
    rw [List.filter_cons]
    cases hp : (p.id == pid) with
    | true =>
      have hc : (ids.contains p.id) = true := by
        rw [eq_of_beq hp]; exact List.elem_eq_true_of_mem hmem
      rw [hc, if_pos rfl, find?_cons_pos (fun p => p.id == pid) p _ hp,
          find?_cons_pos (fun p => p.id == pid) p t hp]
    | false =>
      cases hc : ids.contains p.id with
      | true =>
        rw [if_pos rfl, find?_cons_neg (fun p => p.id == pid) p _ hp,
            find?_cons_neg (fun p => p.id == pid) p t hp, ih]
      | false =>
        rw [if_neg (by simp), find?_cons_neg (fun p => p.id == pid) p t hp, ih]

/-! ## Claim theorems -/

/-- C10: when the manufacturer webhook shared secret is unset in the
environment, `verifyManufacturerSignature` returns false for every raw
body and every signature, so every `POST /webhooks/manufacturer` request
is rejected with the authentication error (400) and the store is left
unchanged. -/
theorem claim_C10 (h : String → String → String)
    (pj : String → Option ManufEvent) (body : String) (sig : Option String)
    (st : Store) :
    verifyManufacturerSignature h none body sig = .ok false
    ∧ manufacturerWebhook h none pj body sig st = .ok (st, .invalidSig400) :=
  ⟨rfl, rfl⟩

/-- C9: on a manufacturer webhook whose signature verifies but whose raw
body does not parse as JSON, the handler throws at `JSON.parse` and never
reaches the `200 {ok:true}` acknowledgment, with no order state change
(the throw happens before any update); conversely, a `200 {ok:true}`
answer is produced only for bodies that parse as JSON. -/
theorem claim_C9 :
    (∀ (h : String → String → String) (sec : Option String)
       (pj : String → Option ManufEvent) (body : String) (sig : Option String)
       (st : Store),
       verifyManufacturerSignature h sec body sig = .ok true →
       pj body = none →
       manufacturerWebhook h sec pj body sig st = .error ())
    ∧ (∀ (h : String → String → String) (sec : Option String)
       (pj : String → Option ManufEvent) (body : String) (sig : Option String)
       (st st1 : Store),
       manufacturerWebhook h sec pj body sig st = .ok (st1, .ok200) →
       ∃ ev, pj body = some ev) := by
  constructor
  · intro h sec pj body sig st hv hp
    unfold manufacturerWebhook
    rw [hv, hp]
  · intro h sec pj body sig st st1 hok
    unfold manufacturerWebhook at hok
    split at hok
    case h_1 => exact absurd hok (by simp)
    case h_2 => exact absurd hok (by simp)
    case h_3 =>
      split at hok
      case h_1 => exact absurd hok (by simp)
      case h_2 ev hev => exact ⟨ev, hev⟩

/-- C9 witness: a concrete verified-signature request whose body does not
parse: the handler throws. -/
theorem claim_C9_witness :
    verifyManufacturerSignature (fun _ _ => "d") (some "s") "not json" (some "d")
      = .ok true
    ∧ (fun _ : String => (none : Option ManufEvent)) "not json" = none
    ∧ manufacturerWebhook (fun _ _ => "d") (some "s")
        (fun _ => (none : Option ManufEvent)) "not json" (some "d")
        { orders := [], paymentEvents := [] } = .error () :=
  ⟨by decide, rfl,
   claim_C9.1 (fun _ _ => "d") (some "s") (fun _ => none) "not json" (some "d")
     { orders := [], paymentEvents := [] } (by decide) rfl⟩

/-- C4 counterexample: an incorrect `X-Signature` whose byte length
differs from the 64-character hex digest makes `crypto.timingSafeEqual`
throw, so the handler raises an exception (surfaced by express as a 500)
instead of returning the 400 authentication error claimed. -/
theorem claim_C4_counterexample :
    manufacturerWebhook
      (fun _ _ => "0000000000000000000000000000000000000000000000000000000000000000")
      (some "secret") (fun _ => some { type := "SHIPPED" }) "payload" (some "abc")
      { orders := [], paymentEvents := [] } = .error ()
    ∧ manufacturerWebhook
        (fun _ _ => "0000000000000000000000000000000000000000000000000000000000000000")
        (some "secret") (fun _ => some { type := "SHIPPED" }) "payload" (some "abc")
        { orders := [], paymentEvents := [] }
        ≠ .ok ({ orders := [], paymentEvents := [] }, .invalidSig400) := by
  constructor
  · decide
  · decide

/-- C4 amended: any manufacturer webhook whose signature does not verify
leaves all orders unchanged; it answers 400 when verification returns
false (missing, empty, or equal-length-but-different signature), but an
incorrect signature whose byte length differs from the digest makes the
comparison throw, so the request fails with an exception (500), not a
400. -/
theorem claim_C4_amended (h : String → String → String) (sec : Option String)
    (pj : String → Option ManufEvent) (body : String) (sig : Option String)
    (st : Store)
    (hbad : verifyManufacturerSignature h sec body sig ≠ .ok true) :
    manufacturerWebhook h sec pj body sig st = .ok (st, .invalidSig400)
    ∨ manufacturerWebhook h sec pj body sig st = .error () := by
  unfold manufacturerWebhook
  cases hv : verifyManufacturerSignature h sec body sig with
  | error e => cases e; exact .inr rfl
  | ok b =>
    cases b with
    | false => exact .inl rfl
    | true => exact absurd hv hbad

/-- C4 amended witness: a same-length incorrect signature gets the 400
answer with the store unchanged. -/
theorem claim_C4_amended_witness :
    verifyManufacturerSignature (fun _ _ => "aa") (some "s") "body" (some "ab")
      ≠ .ok true
    ∧ (manufacturerWebhook (fun _ _ => "aa") (some "s") (fun _ => none) "body"
         (some "ab") { orders := [], paymentEvents := [] }
         = .ok ({ orders := [], paymentEvents := [] }, .invalidSig400)
       ∨ manufacturerWebhook (fun _ _ => "aa") (some "s") (fun _ => none) "body"
           (some "ab") { orders := [], paymentEvents := [] } = .error ()) :=
  ⟨by decide,
   claim_C4_amended (fun _ _ => "aa") (some "s") (fun _ => none) "body"
     (some "ab") { orders := [], paymentEvents := [] } (by decide)⟩

/-- C5 counterexample: a signature-verified `checkout.session.completed`
delivery whose fulfillment push fails appends no `paymentEvent` record at
all — the audit `create` sits after the push inside the try block, so the
throw skips it. -/
theorem claim_C5_counterexample :
    (stripeTryBlock "" []
      { type := "checkout.session.completed",
        obj := { metadataOrderId := some "o1", paymentIntent := some "pi" } }
      { orders := [{ id := "o1", email := "e", amountCents := 1000,
                     currency := "eur", status := .PENDING }],
        paymentEvents := [] }
      [.error "network down"]).store.paymentEvents.length = 0
    ∧ (stripeTryBlock "" []
      { type := "checkout.session.completed",
        obj := { metadataOrderId := some "o1", paymentIntent := some "pi" } }
      { orders := [{ id := "o1", email := "e", amountCents := 1000,
                     currency := "eur", status := .PENDING }],
        paymentEvents := [] }
      [.error "network down"]).threw = true := by
  constructor
  · decide
  · decide

/-- C5 amended: a verified delivery appends exactly one audit record when
the try block runs to completion (including unrecognized event types and
events without an order correlation), and zero records when processing
throws on the way (missing order row, payload build failure, or
fulfillment-push failure); duplicate deliveries that complete produce
duplicate audit entries. -/
theorem claim_C5_amended (b : String) (c : List Product) (ev : StripeEvent)
    (st : Store) (oracle : ManufOracle) :
    (stripeTryBlock b c ev st oracle).store.paymentEvents.length
      = st.paymentEvents.length
        + (if (stripeTryBlock b c ev st oracle).threw then 0 else 1) := by
  have key : ∀ out : StripeOutcome, stripeTryBlock b c ev st oracle = out →
      out.store.paymentEvents.length
        = st.paymentEvents.length + (if out.threw then 0 else 1) := by
    intro out hout
    unfold stripeTryBlock at hout
    split at hout
    case isTrue =>
      split at hout
      case h_1 orderId heq =>
        split at hout
        case isTrue => subst hout; simp [appendAudit]
        case isFalse =>
          split at hout
          case h_1 => subst hout; simp
          case h_2 st1 hupd =>
            have hst1 := updateOrderById_eq_ok hupd
            subst hst1
            split at hout
            case h_1 => subst hout; simp [appendAudit]
            case h_2 order hford =>
              split at hout
              case h_1 => subst hout; simp
              case h_2 =>
                split at hout
                case h_1 => subst hout; simp
                case h_2 m rest hcall =>
                  split at hout
                  case h_1 => subst hout; simp
                  case h_2 st2 hupd2 =>
                    have hst2 := updateOrderById_eq_ok hupd2
                    subst hst2
                    subst hout
                    simp [appendAudit]
      case h_2 => subst hout; simp [appendAudit]
    case isFalse => subst hout; simp [appendAudit]
  exact key _ rfl

/-- C2 counterexample: a single verified manufacturer
`FULFILLMENT_ACCEPTED` delivery moves an order that is already `SHIPPED`
back to `FULFILLMENT_ACCEPTED` — the `updateMany` filters only on the
fulfillment id, not on the current status, so the update is a blind
overwrite and the claimed monotonicity fails. -/
theorem claim_C2_counterexample :
    manufacturerWebhook (fun _ _ => "d") (some "s")
      (fun _ => some { type := "FULFILLMENT_ACCEPTED", fulfillmentId := some "F9" })
      "body" (some "d")
      { orders := [{ id := "o2", email := "e", amountCents := 500,
                     currency := "eur", status := .SHIPPED,
                     fulfillmentId := some "F9", trackingNumber := some "T1" }],
        paymentEvents := [] }
      = .ok ({ orders := [{ id := "o2", email := "e", amountCents := 500,
                            currency := "eur", status := .FULFILLMENT_ACCEPTED,
                            fulfillmentId := some "F9",
                            trackingNumber := some "T1" }],
               paymentEvents := [] }, .ok200) := by
  decide

/-- C2 amended: across any sequence of webhook deliveries (payment and
manufacturer, in any interleaving or repetition) an order never moves
back to `PENDING` — any order that is `PENDING` afterwards is an
untouched order of the initial store — but statuses beyond `PENDING` are
not monotone: each update is an unconditional overwrite, so a duplicate
payment event regresses an order to `PAID` and a late
`FULFILLMENT_ACCEPTED` event regresses a `SHIPPED` order. -/
theorem claim_C2_amended (env : Env) (ds : List Delivery) (st : Store)
    (oracle : ManufOracle) :
    ∀ o1 ∈ (deliverAll env ds (st, oracle)).1.orders,
      o1.status = .PENDING → o1 ∈ st.orders :=
  deliverAll_pending env ds (st, oracle)

/-- C2 amended witness: one manufacturer `SHIPPED` delivery aimed at a
different fulfillment id leaves a pending order in place. -/
theorem claim_C2_amended_witness :
    { id := "w2", email := "e", amountCents := 0, currency := "eur",
      status := .PENDING, fulfillmentId := some "OTHER" : Order }
      ∈ (deliverAll
          { baseUrl := "", catalog := [], hmacHex := fun _ _ => "d",
            manufSecret := some "s",
            parseJson := fun _ =>
              some { type := "SHIPPED", fulfillmentId := some "FX" } }
          [.manufacturer "b" (some "d")]
          ({ orders := [{ id := "w2", email := "e", amountCents := 0,
                          currency := "eur", status := .PENDING,
                          fulfillmentId := some "OTHER" }],
             paymentEvents := [] }, [])).1.orders
    ∧ { id := "w2", email := "e", amountCents := 0, currency := "eur",
        status := .PENDING, fulfillmentId := some "OTHER" : Order }
        ∈ ({ orders := [{ id := "w2", email := "e", amountCents := 0,
                          currency := "eur", status := .PENDING,
                          fulfillmentId := some "OTHER" }],
             paymentEvents := [] } : Store).orders :=
  ⟨by decide,
   claim_C2_amended
     { baseUrl := "", catalog := [], hmacHex := fun _ _ => "d",
       manufSecret := some "s",
       parseJson := fun _ =>
         some { type := "SHIPPED", fulfillmentId := some "FX" } }
     [.manufacturer "b" (some "d")]
     { orders := [{ id := "w2", email := "e", amountCents := 0,
                    currency := "eur", status := .PENDING,
                    fulfillmentId := some "OTHER" }],
       paymentEvents := [] }
     []
     { id := "w2", email := "e", amountCents := 0, currency := "eur",
       status := .PENDING, fulfillmentId := some "OTHER" }
     (by decide) rfl⟩

/-- C8 counterexample: a duplicate `checkout.session.completed` delivery
for an order that already carries `fulfillmentId = F1` pushes the order
to the manufacturer again and overwrites the stored fulfillment id with
the freshly returned `F2`. -/
theorem claim_C8_counterexample :
    (findOrder
      (stripeTryBlock "" []
        { type := "checkout.session.completed",
          obj := { metadataOrderId := some "o8", paymentIntent := some "pi" } }
        { orders := [{ id := "o8", email := "e", amountCents := 100,
                       currency := "eur", status := .SENT_TO_SUPPLIER,
                       fulfillmentId := some "F1" }],
          paymentEvents := [] }
        [.ok { fulfillmentId := "F2" }]).store "o8").map Order.fulfillmentId
      = some (some "F2") := by
  decide

/-- C8 amended: the fulfillment id is written only together with the
`SENT_TO_SUPPLIER` status immediately after a successful manufacturer
call of the same delivery (otherwise every order keeps its fulfillment
id, and the manufacturer webhook never touches it), but nothing prevents
a duplicate payment delivery from pushing again and overwriting an
already-set id. -/
theorem claim_C8_amended :
    (∀ (b : String) (c : List Product) (ev : StripeEvent) (st : Store)
       (oracle : ManufOracle),
       ∀ o1 ∈ (stripeTryBlock b c ev st oracle).store.orders,
         ∃ o ∈ st.orders, o1.id = o.id ∧
           (o1.fulfillmentId = o.fulfillmentId ∨
            (o1.status = .SENT_TO_SUPPLIER ∧
             ∃ m rest, oracle = .ok m :: rest ∧
               o1.fulfillmentId = some m.fulfillmentId)))
    ∧ (∀ (h : String → String → String) (sec : Option String)
       (pj : String → Option ManufEvent) (body : String) (sig : Option String)
       (st st1 : Store) (r : ManufResp),
       manufacturerWebhook h sec pj body sig st = .ok (st1, r) →
       ∀ o1 ∈ st1.orders, ∃ o ∈ st.orders, o1.id = o.id ∧
         o1.fulfillmentId = o.fulfillmentId) :=
  ⟨fun b c ev st oracle => stripeTryBlock_fid b c ev st oracle,
   fun h sec pj body sig st st1 r hok =>
     manufacturerWebhook_fid h sec pj body sig st st1 r hok⟩

/-- C8 amended witness: instantiating the stripe half on a concrete
delivery whose push succeeds. -/
theorem claim_C8_amended_witness :
    { id := "w8", email := "e", amountCents := 0, currency := "eur",
      status := .SENT_TO_SUPPLIER, fulfillmentId := some "G2",
      stripePaymentIntentId := some "pi" : Order }
      ∈ (stripeTryBlock "" []
          { type := "checkout.session.completed",
            obj := { metadataOrderId := some "w8", paymentIntent := some "pi" } }
          { orders := [{ id := "w8", email := "e", amountCents := 0,
                         currency := "eur", status := .PENDING,
                         fulfillmentId := some "G1" }],
            paymentEvents := [] }
          [.ok { fulfillmentId := "G2" }]).store.orders
    ∧ ∃ o ∈ ({ orders := [{ id := "w8", email := "e", amountCents := 0,
                            currency := "eur", status := .PENDING,
                            fulfillmentId := some "G1" }],
               paymentEvents := [] } : Store).orders,
        ({ id := "w8", email := "e", amountCents := 0, currency := "eur",
           status := .SENT_TO_SUPPLIER, fulfillmentId := some "G2",
           stripePaymentIntentId := some "pi" : Order }).id = o.id ∧
        (({ id := "w8", email := "e", amountCents := 0, currency := "eur",
            status := .SENT_TO_SUPPLIER, fulfillmentId := some "G2",
            stripePaymentIntentId := some "pi" : Order }).fulfillmentId
            = o.fulfillmentId ∨
         (({ id := "w8", email := "e", amountCents := 0, currency := "eur",
             status := .SENT_TO_SUPPLIER, fulfillmentId := some "G2",
             stripePaymentIntentId := some "pi" : Order }).status
             = .SENT_TO_SUPPLIER ∧
          ∃ m rest,
            ([.ok { fulfillmentId := "G2" }] : ManufOracle) = .ok m :: rest ∧
            ({ id := "w8", email := "e", amountCents := 0, currency := "eur",
               status := .SENT_TO_SUPPLIER, fulfillmentId := some "G2",
               stripePaymentIntentId := some "pi" : Order }).fulfillmentId
               = some m.fulfillmentId)) :=
  ⟨by decide,
   claim_C8_amended.1 "" []
     { type := "checkout.session.completed",
       obj := { metadataOrderId := some "w8", paymentIntent := some "pi" } }
     { orders := [{ id := "w8", email := "e", amountCents := 0,
                    currency := "eur", status := .PENDING,
                    fulfillmentId := some "G1" }],
       paymentEvents := [] }
     [.ok { fulfillmentId := "G2" }]
     { id := "w8", email := "e", amountCents := 0, currency := "eur",
       status := .SENT_TO_SUPPLIER, fulfillmentId := some "G2",
       stripePaymentIntentId := some "pi" }
     (by decide)⟩

theorem buildPayload_ok (b : String) (c : List Product) (ord : Order)
    (obj : SessionObj) (its : List FulfillItem)
    (h : buildFulfillItems c ord.lineItems = .ok its) :
    buildPayload b c ord obj
      = .ok { orderId := ord.id, email := ord.email, items := its,
              shippingAddress := shippingOf obj,
              notifyUrl := b ++ "/webhooks/manufacturer" } := by
  unfold buildPayload
  rw [h]
  rfl

/-- C6: for a verified payment-completed event whose order reaches `PAID`,
a failing fulfillment call leaves the order at `PAID` with no
fulfillmentId set, consumes exactly one manufacturer-call attempt (no
retry within the delivery), performs no audit append after the throw, and
the webhook is still acknowledged with `200 {received:true}`. -/
theorem claim_C6 (b : String) (c : List Product) (ev : StripeEvent)
    (st : Store) (oid : String) (o : Order) (e : String) (rest : ManufOracle)
    (htype : ev.type = "checkout.session.completed")
    (hoid : ev.obj.metadataOrderId = some oid)
    (hne : oid ≠ "")
    (hfind : findOrder st oid = some o)
    (hfid : o.fulfillmentId = none)
    (hitems : ∃ its, buildFulfillItems c o.lineItems = .ok its) :
    ∃ o1, findOrder (stripeWebhookProcess b c ev st (.error e :: rest)).store oid
            = some o1
      ∧ o1.status = .PAID
      ∧ o1.fulfillmentId = none
      ∧ (stripeWebhookProcess b c ev st (.error e :: rest)).oracle = rest
      ∧ (stripeWebhookProcess b c ev st (.error e :: rest)).resp = .received200
      ∧ (stripeWebhookProcess b c ev st (.error e :: rest)).store.paymentEvents
          = st.paymentEvents := by
  obtain ⟨its, hits⟩ := hitems
  have h1 : (ev.type == "checkout.session.completed") = true := by
    rw [htype]; exact beq_self_eq_true _
  have h2 : (oid == "") = false := beq_eq_false_iff_ne.mpr hne
  have hupd := updateOrderById_of_found hfind (markPaid ev.obj.paymentIntent)
  have hford := findOrder_map_guard (markPaid ev.obj.paymentIntent)
    (fun x => rfl) hfind
  have hblock : stripeTryBlock b c ev st (.error e :: rest)
      = { store :=
            { st with
              orders :=
                st.orders.map (fun x =>
                  if x.id == oid then markPaid ev.obj.paymentIntent x else x) },
          oracle := rest, threw := true } := by
    unfold stripeTryBlock
    rw [hoid]
    simp only [h1, h2, if_true, if_false, Bool.false_eq_true, eq_self_iff_true,
      hupd, hford, buildPayload_ok b c (markPaid ev.obj.paymentIntent o) ev.obj its hits,
      callManufacturer]
  refine ⟨markPaid ev.obj.paymentIntent o, ?_, rfl, hfid, ?_, rfl, ?_⟩
  · show findOrder (stripeTryBlock b c ev st (.error e :: rest)).store oid = _
    rw [hblock]
    exact hford
  · show (stripeTryBlock b c ev st (.error e :: rest)).oracle = rest
    rw [hblock]
  · show (stripeTryBlock b c ev st (.error e :: rest)).store.paymentEvents = _
    rw [hblock]

/-- C6 witness: a concrete pending order whose fulfillment push fails. -/
theorem claim_C6_witness :
    ({ type := "checkout.session.completed",
       obj := { metadataOrderId := some "w6", paymentIntent := some "pi" } }
        : StripeEvent).type = "checkout.session.completed"
    ∧ ("w6" : String) ≠ ""
    ∧ findOrder { orders := [{ id := "w6", email := "e", amountCents := 7,
                               currency := "eur", status := .PENDING }],
                  paymentEvents := [] } "w6"
        = some { id := "w6", email := "e", amountCents := 7,
                 currency := "eur", status := .PENDING }
    ∧ ∃ o1, findOrder
          (stripeWebhookProcess "" []
            { type := "checkout.session.completed",
              obj := { metadataOrderId := some "w6", paymentIntent := some "pi" } }
            { orders := [{ id := "w6", email := "e", amountCents := 7,
                           currency := "eur", status := .PENDING }],
              paymentEvents := [] }
            [.error "down"]).store "w6" = some o1
        ∧ o1.status = .PAID
        ∧ o1.fulfillmentId = none
        ∧ (stripeWebhookProcess "" []
            { type := "checkout.session.completed",
              obj := { metadataOrderId := some "w6", paymentIntent := some "pi" } }
            { orders := [{ id := "w6", email := "e", amountCents := 7,
                           currency := "eur", status := .PENDING }],
              paymentEvents := [] }
            [.error "down"]).oracle = []
        ∧ (stripeWebhookProcess "" []
            { type := "checkout.session.completed",
              obj := { metadataOrderId := some "w6", paymentIntent := some "pi" } }
            { orders := [{ id := "w6", email := "e", amountCents := 7,
                           currency := "eur", status := .PENDING }],
              paymentEvents := [] }
            [.error "down"]).resp = .received200
        ∧ (stripeWebhookProcess "" []
            { type := "checkout.session.completed",
              obj := { metadataOrderId := some "w6", paymentIntent := some "pi" } }
            { orders := [{ id := "w6", email := "e", amountCents := 7,
                           currency := "eur", status := .PENDING }],
              paymentEvents := [] }
            [.error "down"]).store.paymentEvents
            = ({ orders := [{ id := "w6", email := "e", amountCents := 7,
                              currency := "eur", status := .PENDING }],
                 paymentEvents := [] } : Store).paymentEvents :=
  ⟨rfl, by decide, by decide,
   claim_C6 "" []
     { type := "checkout.session.completed",
       obj := { metadataOrderId := some "w6", paymentIntent := some "pi" } }
     { orders := [{ id := "w6", email := "e", amountCents := 7,
                    currency := "eur", status := .PENDING }],
       paymentEvents := [] }
     "w6"
     { id := "w6", email := "e", amountCents := 7, currency := "eur",
       status := .PENDING }
     "down" []
     rfl rfl (by decide) (by decide) rfl ⟨[], rfl⟩⟩

theorem stripeTryBlock_success (b : String) (c : List Product) (ev : StripeEvent)
    (st : Store) (oid : String) (o : Order) (m : ManufOk) (rest : ManufOracle)
    (htype : ev.type = "checkout.session.completed")
    (hoid : ev.obj.metadataOrderId = some oid)
    (hne : oid ≠ "")
    (hfind : findOrder st oid = some o)
    (hitems : ∃ its, buildFulfillItems c o.lineItems = .ok its) :
    stripeTryBlock b c ev st (.ok m :: rest)
      = { store :=
            appendAudit
              { st with
                orders :=
                  (st.orders.map (fun x =>
                    if x.id == oid then markPaid ev.obj.paymentIntent x else x)).map
                    (fun x =>
                      if x.id == oid then markSent m.fulfillmentId x else x) }
              ev,
          oracle := rest, threw := false } := by
  obtain ⟨its, hits⟩ := hitems
  have h1 : (ev.type == "checkout.session.completed") = true := by
    rw [htype]; exact beq_self_eq_true _
  have h2 : (oid == "") = false := beq_eq_false_iff_ne.mpr hne
  have hfind0 : st.orders.find? (fun x => x.id == oid) = some o := hfind
  have hp := List.find?_some hfind0
  have hoideq : o.id = oid := eq_of_beq hp
  have hoideq2 : (markPaid ev.obj.paymentIntent o).id = oid := hoideq
  have hupd := updateOrderById_of_found hfind (markPaid ev.obj.paymentIntent)
  have hford := findOrder_map_guard (markPaid ev.obj.paymentIntent)
    (fun x => rfl) hfind
  have hford2 : findOrder
      { st with
        orders := st.orders.map (fun x =>
          if x.id == oid then markPaid ev.obj.paymentIntent x else x) }
      (markPaid ev.obj.paymentIntent o).id
      = some (markPaid ev.obj.paymentIntent o) := by
    rw [hoideq2]; exact hford
  have hupd2 := updateOrderById_of_found hford2 (markSent m.fulfillmentId)
  rw [hoideq2] at hupd2
  unfold stripeTryBlock
  rw [hoid]
  simp only [h1, h2, if_true, if_false, Bool.false_eq_true, eq_self_iff_true,
    hupd, hford,
    buildPayload_ok b c (markPaid ev.obj.paymentIntent o) ev.obj its hits,
    callManufacturer, hoideq2, hupd2]

theorem markPaid_id (pi : Option String) (x : Order) : (markPaid pi x).id = x.id := rfl

theorem markSent_id (f : String) (x : Order) : (markSent f x).id = x.id := rfl

theorem markPaid_lineItems (pi : Option String) (x : Order) :
    (markPaid pi x).lineItems = x.lineItems := rfl

theorem markSent_lineItems (f : String) (x : Order) :
    (markSent f x).lineItems = x.lineItems := rfl

/-- C1 counterexample: delivering the same verified payment-completed
event twice is not a no-op on order state: the second delivery re-applies
`PAID`, makes a second fulfillment push (both prepared manufacturer
responses are consumed) and ends at `SENT_TO_SUPPLIER` with the second
push id `F2` in place of `F1`. -/
theorem claim_C1_counterexample :
    (findOrder (stripeWebhookProcess "" []
        { type := "checkout.session.completed",
          obj := { metadataOrderId := some "o1", paymentIntent := some "pi" } }
        { orders := [{ id := "o1", email := "e", amountCents := 1000,
                       currency := "eur", status := .PENDING }],
          paymentEvents := [] }
        [.ok { fulfillmentId := "F1" }, .ok { fulfillmentId := "F2" }]).store
        "o1").map Order.fulfillmentId = some (some "F1")
    ∧ (findOrder (stripeWebhookProcess "" []
        { type := "checkout.session.completed",
          obj := { metadataOrderId := some "o1", paymentIntent := some "pi" } }
        (stripeWebhookProcess "" []
          { type := "checkout.session.completed",
            obj := { metadataOrderId := some "o1", paymentIntent := some "pi" } }
          { orders := [{ id := "o1", email := "e", amountCents := 1000,
                         currency := "eur", status := .PENDING }],
            paymentEvents := [] }
          [.ok { fulfillmentId := "F1" }, .ok { fulfillmentId := "F2" }]).store
        (stripeWebhookProcess "" []
          { type := "checkout.session.completed",
            obj := { metadataOrderId := some "o1", paymentIntent := some "pi" } }
          { orders := [{ id := "o1", email := "e", amountCents := 1000,
                         currency := "eur", status := .PENDING }],
            paymentEvents := [] }
          [.ok { fulfillmentId := "F1" }, .ok { fulfillmentId := "F2" }]).oracle).store
        "o1").map Order.fulfillmentId = some (some "F2")
    ∧ (stripeWebhookProcess "" []
        { type := "checkout.session.completed",
          obj := { metadataOrderId := some "o1", paymentIntent := some "pi" } }
        (stripeWebhookProcess "" []
          { type := "checkout.session.completed",
            obj := { metadataOrderId := some "o1", paymentIntent := some "pi" } }
          { orders := [{ id := "o1", email := "e", amountCents := 1000,
                         currency := "eur", status := .PENDING }],
            paymentEvents := [] }
          [.ok { fulfillmentId := "F1" }, .ok { fulfillmentId := "F2" }]).store
        (stripeWebhookProcess "" []
          { type := "checkout.session.completed",
            obj := { metadataOrderId := some "o1", paymentIntent := some "pi" } }
          { orders := [{ id := "o1", email := "e", amountCents := 1000,
                         currency := "eur", status := .PENDING }],
            paymentEvents := [] }
          [.ok { fulfillmentId := "F1" }, .ok { fulfillmentId := "F2" }]).oracle).oracle
        = [] := by
  refine ⟨?_, ?_, ?_⟩
  · decide
  · decide
  · decide

/-- C1 amended: delivering the same verified payment-completed event
twice to a pending order yields one `PENDING` to `PAID` transition on the
first delivery, but the second delivery is not a no-op: it re-applies
`PAID`, makes a second fulfillment push (one oracle response consumed per
delivery) and overwrites the fulfillment id with the second push result;
both deliveries are acknowledged with `200 {received:true}` and each
appends an audit row. -/
theorem claim_C1_amended (b : String) (c : List Product) (o : Order)
    (pi : Option String) (m1 m2 : ManufOk) (rest : ManufOracle)
    (_hpend : o.status = .PENDING) (hli : o.lineItems = []) (hne : o.id ≠ "") :
    findOrder (stripeWebhookProcess b c
        { type := "checkout.session.completed",
          obj := { metadataOrderId := some o.id, paymentIntent := pi } }
        { orders := [o], paymentEvents := [] }
        (.ok m1 :: .ok m2 :: rest)).store o.id
      = some (markSent m1.fulfillmentId (markPaid pi o))
    ∧ (markSent m1.fulfillmentId (markPaid pi o)).status = .SENT_TO_SUPPLIER
    ∧ (markSent m1.fulfillmentId (markPaid pi o)).fulfillmentId
        = some m1.fulfillmentId
    ∧ (stripeWebhookProcess b c
        { type := "checkout.session.completed",
          obj := { metadataOrderId := some o.id, paymentIntent := pi } }
        { orders := [o], paymentEvents := [] }
        (.ok m1 :: .ok m2 :: rest)).oracle = .ok m2 :: rest
    ∧ (stripeWebhookProcess b c
        { type := "checkout.session.completed",
          obj := { metadataOrderId := some o.id, paymentIntent := pi } }
        { orders := [o], paymentEvents := [] }
        (.ok m1 :: .ok m2 :: rest)).store.paymentEvents.length = 1
    ∧ (stripeWebhookProcess b c
        { type := "checkout.session.completed",
          obj := { metadataOrderId := some o.id, paymentIntent := pi } }
        { orders := [o], paymentEvents := [] }
        (.ok m1 :: .ok m2 :: rest)).resp = .received200
    ∧ findOrder (stripeWebhookProcess b c
        { type := "checkout.session.completed",
          obj := { metadataOrderId := some o.id, paymentIntent := pi } }
        (stripeWebhookProcess b c
          { type := "checkout.session.completed",
            obj := { metadataOrderId := some o.id, paymentIntent := pi } }
          { orders := [o], paymentEvents := [] }
          (.ok m1 :: .ok m2 :: rest)).store
        (stripeWebhookProcess b c
          { type := "checkout.session.completed",
            obj := { metadataOrderId := some o.id, paymentIntent := pi } }
          { orders := [o], paymentEvents := [] }
          (.ok m1 :: .ok m2 :: rest)).oracle).store o.id
      = some (markSent m2.fulfillmentId
          (markPaid pi (markSent m1.fulfillmentId (markPaid pi o))))
    ∧ (markSent m2.fulfillmentId
        (markPaid pi (markSent m1.fulfillmentId (markPaid pi o)))).status
        = .SENT_TO_SUPPLIER
    ∧ (markSent m2.fulfillmentId
        (markPaid pi (markSent m1.fulfillmentId (markPaid pi o)))).fulfillmentId
        = some m2.fulfillmentId
    ∧ (stripeWebhookProcess b c
        { type := "checkout.session.completed",
          obj := { metadataOrderId := some o.id, paymentIntent := pi } }
        (stripeWebhookProcess b c
          { type := "checkout.session.completed",
            obj := { metadataOrderId := some o.id, paymentIntent := pi } }
          { orders := [o], paymentEvents := [] }
          (.ok m1 :: .ok m2 :: rest)).store
        (stripeWebhookProcess b c
          { type := "checkout.session.completed",
            obj := { metadataOrderId := some o.id, paymentIntent := pi } }
          { orders := [o], paymentEvents := [] }
          (.ok m1 :: .ok m2 :: rest)).oracle).oracle = rest
    ∧ (stripeWebhookProcess b c
        { type := "checkout.session.completed",
          obj := { metadataOrderId := some o.id, paymentIntent := pi } }
        (stripeWebhookProcess b c
          { type := "checkout.session.completed",
            obj := { metadataOrderId := some o.id, paymentIntent := pi } }
          { orders := [o], paymentEvents := [] }
          (.ok m1 :: .ok m2 :: rest)).store
        (stripeWebhookProcess b c
          { type := "checkout.session.completed",
            obj := { metadataOrderId := some o.id, paymentIntent := pi } }
          { orders := [o], paymentEvents := [] }
          (.ok m1 :: .ok m2 :: rest)).oracle).store.paymentEvents.length = 2 := by
  have hfind1 : findOrder { orders := [o], paymentEvents := [] } o.id = some o := by
    unfold findOrder
    exact find?_cons_pos (fun x => x.id == o.id) o [] (beq_self_eq_true o.id)
  have hits1 : ∃ its, buildFulfillItems c o.lineItems = .ok its :=
    ⟨[], by rw [hli]; rfl⟩
  have hd1 := stripeTryBlock_success b c
    { type := "checkout.session.completed",
      obj := { metadataOrderId := some o.id, paymentIntent := pi } }
    { orders := [o], paymentEvents := [] } o.id o m1 (.ok m2 :: rest)
    rfl rfl hne hfind1 hits1
  simp only [List.map_cons, List.map_nil, markPaid_id, beq_self_eq_true,
    if_true, eq_self_iff_true, appendAudit, List.nil_append] at hd1
  have hfind2 : findOrder
      { orders := [markSent m1.fulfillmentId (markPaid pi o)],
        paymentEvents :=
          [{ type := "checkout.session.completed", orderId := some o.id }] }
      o.id = some (markSent m1.fulfillmentId (markPaid pi o)) := by
    unfold findOrder
    exact find?_cons_pos (fun x => x.id == o.id)
      (markSent m1.fulfillmentId (markPaid pi o)) [] (beq_self_eq_true o.id)
  have hits2 : ∃ its,
      buildFulfillItems c (markSent m1.fulfillmentId (markPaid pi o)).lineItems
        = .ok its :=
    ⟨[], by rw [markSent_lineItems, markPaid_lineItems, hli]; rfl⟩
  have hd2 := stripeTryBlock_success b c
    { type := "checkout.session.completed",
      obj := { metadataOrderId := some o.id, paymentIntent := pi } }
    { orders := [markSent m1.fulfillmentId (markPaid pi o)],
      paymentEvents :=
        [{ type := "checkout.session.completed", orderId := some o.id }] }
    o.id (markSent m1.fulfillmentId (markPaid pi o)) m2 rest
    rfl rfl hne hfind2 hits2
  simp only [List.map_cons, List.map_nil, markPaid_id, markSent_id,
    beq_self_eq_true, if_true, eq_self_iff_true, appendAudit,
    List.cons_append, List.nil_append] at hd2
  simp only [stripeWebhookProcess, hd1, hd2]
  refine ⟨?_, by trivial, by trivial, by trivial, by trivial, by trivial, ?_,
    by trivial, by trivial, by trivial, by trivial⟩
  · unfold findOrder
    exact find?_cons_pos (fun x => x.id == o.id)
      (markSent m1.fulfillmentId (markPaid pi o)) [] (beq_self_eq_true o.id)
  · unfold findOrder
    exact find?_cons_pos (fun x => x.id == o.id)
      (markSent m2.fulfillmentId
        (markPaid pi (markSent m1.fulfillmentId (markPaid pi o)))) []
      (beq_self_eq_true o.id)

/-- C1 amended witness: a concrete pending order delivered twice with
manufacturer responses `K1` then `K2`. -/
theorem claim_C1_amended_witness :
    ({ id := "w1", email := "e", amountCents := 5, currency := "eur",
       status := .PENDING : Order }).status = .PENDING
    ∧ ({ id := "w1", email := "e", amountCents := 5, currency := "eur",
         status := .PENDING : Order }).lineItems = []
    ∧ ({ id := "w1", email := "e", amountCents := 5, currency := "eur",
         status := .PENDING : Order }).id ≠ ""
    ∧ findOrder (stripeWebhookProcess "" []
        { type := "checkout.session.completed",
          obj := { metadataOrderId := some "w1", paymentIntent := some "pi" } }
        { orders := [{ id := "w1", email := "e", amountCents := 5,
                       currency := "eur", status := .PENDING }],
          paymentEvents := [] }
        [.ok { fulfillmentId := "K1" }, .ok { fulfillmentId := "K2" }]).store
        "w1"
      = some { id := "w1", email := "e", amountCents := 5, currency := "eur",
               status := .SENT_TO_SUPPLIER, stripePaymentIntentId := some "pi",
               fulfillmentId := some "K1" } :=
  ⟨rfl, rfl, by decide,
   (claim_C1_amended "" []
     { id := "w1", email := "e", amountCents := 5, currency := "eur",
       status := .PENDING }
     (some "pi") { fulfillmentId := "K1" } { fulfillmentId := "K2" } []
     rfl rfl (by decide)).1⟩

/-- C3 counterexample: a cart mixing one resolvable item (`p1`, 1000
cents) and one unresolvable item (`px`) persists an order whose total
counts only `p1` but whose line items include the unresolvable `px` row
with `unitPriceCents 0` — the claim that unresolvable items are excluded
from the persisted line items is false. -/
theorem claim_C3_counterexample :
    (checkout "" [{ id := "p1", title := "tee", sku := "SKU1",
                    priceCents := 1000, currency := "eur", active := true }]
      (fun _ => .ok { id := "cs_1", url := some "u" }) "ord1" "e"
      (some [{ productId := "p1", quantity := 2 },
             { productId := "px", quantity := 3 }])
      { orders := [], paymentEvents := [] }).1.orders
    = [{ id := "ord1", email := "e", amountCents := 2000, currency := "eur",
         status := .PENDING, stripeSessionId := some "cs_1",
         lineItems := [{ productId := "p1", quantity := 2, unitPriceCents := 1000 },
                       { productId := "px", quantity := 3, unitPriceCents := 0 }] }] := by
  decide

/-- C3 amended: for every nonempty cart the persisted order has
`oid` as id, total equal to the sum of snapshot unit price times quantity
over the resolvable items only, and one line-item row per input cart item
(in order), where resolvable items carry their snapshot price and
unresolvable items are kept with `unitPriceCents 0` instead of being
dropped. -/
theorem claim_C3_amended (b : String) (catalog : List Product)
    (sc : StripeSessionRequest → Except String StripeSession)
    (oid email : String) (l : List CartItem) (st : Store)
    (hne : l ≠ []) :
    ∃ o ∈ (checkout b catalog sc oid email (some l) st).1.orders,
      o.id = oid
      ∧ o.amountCents = specResolvedTotal catalog l
      ∧ o.lineItems = l.map (fun i =>
          { productId := i.productId, quantity := i.quantity,
            unitPriceCents :=
              ((catalog.find? (fun p => p.id == i.productId)).map
                Product.priceCents).getD 0 })
      ∧ o.status = .PENDING := by
  have hempty : l.isEmpty = false := by
    cases l with
    | nil => exact absurd rfl hne
    | cons a t => rfl
  have hamount : checkoutAmount (findManyByIds catalog (l.map CartItem.productId)) l
      = specResolvedTotal catalog l := by
    rw [checkoutAmount_eq_mapSum, specResolvedTotal_eq_mapSum]
    apply congrArg List.sum
    apply List.map_congr_left
    intro i hi
    rw [find?_findManyByIds catalog (l.map CartItem.productId) i.productId
      (List.mem_map_of_mem CartItem.productId hi)]
  have hlines : checkoutLineItems (findManyByIds catalog (l.map CartItem.productId)) l
      = l.map (fun i =>
          { productId := i.productId, quantity := i.quantity,
            unitPriceCents :=
              ((catalog.find? (fun p => p.id == i.productId)).map
                Product.priceCents).getD 0 }) := by
    unfold checkoutLineItems
    apply List.map_congr_left
    intro i hi
    rw [find?_findManyByIds catalog (l.map CartItem.productId) i.productId
      (List.mem_map_of_mem CartItem.productId hi)]
  unfold checkout
  simp only [hempty, Bool.false_eq_true, if_false]
  cases hsc : sc { customerEmail := email, lineItems := checkoutStripeLines (findManyByIds catalog (l.map CartItem.productId)) l, metadataOrderId := oid, successUrl := b ++ "/success.html?orderId=" ++ oid, cancelUrl := b ++ "/cancel.html?orderId=" ++ oid } with
  | error err =>
    refine ⟨{ id := oid, email := email,
              amountCents := checkoutAmount
                (findManyByIds catalog (l.map CartItem.productId)) l,
              currency := "eur", status := orderCreateDefaultStatus,
              lineItems := checkoutLineItems
                (findManyByIds catalog (l.map CartItem.productId)) l },
            ?_, rfl, hamount, hlines, rfl⟩
    simp [hsc]
  | ok sess =>
    dsimp only
    cases hupd : updateOrderById
        { orders := st.orders ++
            [{ id := oid, email := email,
               amountCents := checkoutAmount (findManyByIds catalog (l.map CartItem.productId)) l,
               currency := "eur", status := orderCreateDefaultStatus,
               lineItems := checkoutLineItems (findManyByIds catalog (l.map CartItem.productId)) l }],
          paymentEvents := st.paymentEvents }
        oid (fun o => { o with stripeSessionId := some sess.id }) with
    | error e =>
      refine ⟨{ id := oid, email := email,
                amountCents := checkoutAmount (findManyByIds catalog (l.map CartItem.productId)) l,
                currency := "eur", status := orderCreateDefaultStatus,
                lineItems := checkoutLineItems (findManyByIds catalog (l.map CartItem.productId)) l },
              ?_, rfl, hamount, hlines, rfl⟩
      exact List.mem_append_right _ (List.mem_singleton.mpr rfl)
    | ok st2 =>
      have hst2 := updateOrderById_eq_ok hupd
      subst hst2
      refine ⟨{ id := oid, email := email,
                amountCents := checkoutAmount (findManyByIds catalog (l.map CartItem.productId)) l,
                currency := "eur", status := orderCreateDefaultStatus,
                stripeSessionId := some sess.id,
                lineItems := checkoutLineItems (findManyByIds catalog (l.map CartItem.productId)) l },
              ?_, rfl, hamount, hlines, rfl⟩
      refine List.mem_map.mpr
        ⟨{ id := oid, email := email,
           amountCents := checkoutAmount (findManyByIds catalog (l.map CartItem.productId)) l,
           currency := "eur", status := orderCreateDefaultStatus,
           lineItems := checkoutLineItems (findManyByIds catalog (l.map CartItem.productId)) l },
         List.mem_append_right _ (List.mem_singleton.mpr rfl), ?_⟩
      rw [if_pos (beq_self_eq_true oid)]

/-- C7 counterexample: a cart whose single item references an unknown
product is not rejected: an order with total 0 (and one price-0 line
item) is persisted before the session call, and the response is the 500
of the failing Stripe call, not the claimed 400. -/
theorem claim_C7_counterexample :
    checkout "" [{ id := "p1", title := "tee", sku := "SKU1",
                   priceCents := 1000, currency := "eur", active := true }]
      (fun _ => .error "stripe rejects empty line_items") "ord2" "e"
      (some [{ productId := "px", quantity := 1 }])
      { orders := [], paymentEvents := [] }
    = ({ orders := [{ id := "ord2", email := "e", amountCents := 0,
                      currency := "eur", status := .PENDING,
                      lineItems := [{ productId := "px", quantity := 1,
                                      unitPriceCents := 0 }] }],
         paymentEvents := [] }, .failed500) := by
  decide

/-- C7 amended: the checkout answers 400 with no side effect exactly when
the items list is missing or empty; when the list is nonempty but every
item is unresolvable, an order with total 0 is nonetheless persisted (one
row added) and the response is not the 400. -/
theorem claim_C7_amended :
    (∀ (b : String) (catalog : List Product)
       (sc : StripeSessionRequest → Except String StripeSession)
       (oid email : String) (st : Store),
       checkout b catalog sc oid email none st = (st, .noItems400))
    ∧ (∀ (b : String) (catalog : List Product)
       (sc : StripeSessionRequest → Except String StripeSession)
       (oid email : String) (st : Store),
       checkout b catalog sc oid email (some []) st = (st, .noItems400))
    ∧ (∀ (b : String) (catalog : List Product)
       (sc : StripeSessionRequest → Except String StripeSession)
       (oid email : String) (l : List CartItem) (st : Store),
       l ≠ [] →
       (∀ i ∈ l, catalog.find? (fun p => p.id == i.productId) = none) →
       (checkout b catalog sc oid email (some l) st).2 ≠ .noItems400
       ∧ (checkout b catalog sc oid email (some l) st).1.orders.length
           = st.orders.length + 1
       ∧ ∃ o ∈ (checkout b catalog sc oid email (some l) st).1.orders,
           o.id = oid ∧ o.amountCents = 0 ∧ o.status = .PENDING) := by
  refine ⟨fun b catalog sc oid email st => rfl,
          fun b catalog sc oid email st => rfl, ?_⟩
  intro b catalog sc oid email l st hne hall
  have hempty : l.isEmpty = false := by
    cases l with
    | nil => exact absurd rfl hne
    | cons a t => rfl
  have hamount0 : checkoutAmount (findManyByIds catalog (l.map CartItem.productId)) l
      = 0 := by
    rw [checkoutAmount_eq_mapSum]
    apply List.sum_eq_zero
    intro x hx
    rcases List.mem_map.mp hx with ⟨i, hi, rfl⟩
    rw [find?_findManyByIds catalog (l.map CartItem.productId) i.productId
      (List.mem_map_of_mem CartItem.productId hi), hall i hi]
  unfold checkout
  simp only [hempty, Bool.false_eq_true, if_false]
  cases hsc : sc { customerEmail := email, lineItems := checkoutStripeLines (findManyByIds catalog (l.map CartItem.productId)) l, metadataOrderId := oid, successUrl := b ++ "/success.html?orderId=" ++ oid, cancelUrl := b ++ "/cancel.html?orderId=" ++ oid } with
  | error err =>
    refine ⟨by simp, by simp, ?_⟩
    refine ⟨{ id := oid, email := email,
              amountCents := checkoutAmount (findManyByIds catalog (l.map CartItem.productId)) l,
              currency := "eur", status := orderCreateDefaultStatus,
              lineItems := checkoutLineItems (findManyByIds catalog (l.map CartItem.productId)) l },
            ?_, rfl, hamount0, rfl⟩
    exact List.mem_append_right _ (List.mem_singleton.mpr rfl)
  | ok sess =>
    dsimp only
    cases hupd : updateOrderById
        { orders := st.orders ++
            [{ id := oid, email := email,
               amountCents := checkoutAmount (findManyByIds catalog (l.map CartItem.productId)) l,
               currency := "eur", status := orderCreateDefaultStatus,
               lineItems := checkoutLineItems (findManyByIds catalog (l.map CartItem.productId)) l }],
          paymentEvents := st.paymentEvents }
        oid (fun o => { o with stripeSessionId := some sess.id }) with
    | error e =>
      refine ⟨by simp, by simp, ?_⟩
      refine ⟨{ id := oid, email := email,
                amountCents := checkoutAmount (findManyByIds catalog (l.map CartItem.productId)) l,
                currency := "eur", status := orderCreateDefaultStatus,
                lineItems := checkoutLineItems (findManyByIds catalog (l.map CartItem.productId)) l },
              ?_, rfl, hamount0, rfl⟩
      exact List.mem_append_right _ (List.mem_singleton.mpr rfl)
    | ok st2 =>
      have hst2 := updateOrderById_eq_ok hupd
      subst hst2
      refine ⟨by simp, by simp, ?_⟩
      refine ⟨{ id := oid, email := email,
                amountCents := checkoutAmount (findManyByIds catalog (l.map CartItem.productId)) l,
                currency := "eur", status := orderCreateDefaultStatus,
                stripeSessionId := some sess.id,
                lineItems := checkoutLineItems (findManyByIds catalog (l.map CartItem.productId)) l },
              ?_, rfl, hamount0, rfl⟩
      refine List.mem_map.mpr
        ⟨{ id := oid, email := email,
           amountCents := checkoutAmount (findManyByIds catalog (l.map CartItem.productId)) l,
           currency := "eur", status := orderCreateDefaultStatus,
           lineItems := checkoutLineItems (findManyByIds catalog (l.map CartItem.productId)) l },
         List.mem_append_right _ (List.mem_singleton.mpr rfl), ?_⟩
      rw [if_pos (beq_self_eq_true oid)]

/-- C3 amended witness: one resolvable-item cart against a failing
gateway. -/
theorem claim_C3_amended_witness :
    ([{ productId := "q1", quantity := 2 }] : List CartItem) ≠ []
    ∧ ∃ o ∈ (checkout "" [{ id := "q1", title := "mug", sku := "SKU9",
                            priceCents := 250, currency := "eur", active := true }]
          (fun _ => .error "gateway down") "wo3" "e"
          (some [{ productId := "q1", quantity := 2 }])
          { orders := [], paymentEvents := [] }).1.orders,
        o.id = "wo3"
        ∧ o.amountCents = specResolvedTotal
            [{ id := "q1", title := "mug", sku := "SKU9", priceCents := 250,
               currency := "eur", active := true }]
            [{ productId := "q1", quantity := 2 }]
        ∧ o.lineItems = ([{ productId := "q1", quantity := 2 }] : List CartItem).map
            (fun i =>
              { productId := i.productId, quantity := i.quantity,
                unitPriceCents :=
                  ((([{ id := "q1", title := "mug", sku := "SKU9",
                        priceCents := 250, currency := "eur", active := true }]
                      : List Product).find?
                      (fun p => p.id == i.productId)).map Product.priceCents).getD 0 })
        ∧ o.status = .PENDING :=
  ⟨by decide,
   claim_C3_amended ""
     [{ id := "q1", title := "mug", sku := "SKU9", priceCents := 250,
        currency := "eur", active := true }]
     (fun _ => .error "gateway down") "wo3" "e"
     [{ productId := "q1", quantity := 2 }]
     { orders := [], paymentEvents := [] }
     (by decide)⟩

/-- C7 amended witness: a nonempty all-unresolvable cart. -/
theorem claim_C7_amended_witness :
    ([{ productId := "zz", quantity := 4 }] : List CartItem) ≠ []
    ∧ (∀ i ∈ ([{ productId := "zz", quantity := 4 }] : List CartItem),
        ([{ id := "q1", title := "mug", sku := "SKU9", priceCents := 250,
            currency := "eur", active := true }] : List Product).find?
          (fun p => p.id == i.productId) = none)
    ∧ ((checkout "" [{ id := "q1", title := "mug", sku := "SKU9",
                       priceCents := 250, currency := "eur", active := true }]
          (fun _ => .ok { id := "cs_9", url := none }) "wo7" "e"
          (some [{ productId := "zz", quantity := 4 }])
          { orders := [], paymentEvents := [] }).2 ≠ .noItems400
        ∧ (checkout "" [{ id := "q1", title := "mug", sku := "SKU9",
                          priceCents := 250, currency := "eur", active := true }]
            (fun _ => .ok { id := "cs_9", url := none }) "wo7" "e"
            (some [{ productId := "zz", quantity := 4 }])
            { orders := [], paymentEvents := [] }).1.orders.length
            = ({ orders := [], paymentEvents := [] } : Store).orders.length + 1
        ∧ ∃ o ∈ (checkout "" [{ id := "q1", title := "mug", sku := "SKU9",
                                priceCents := 250, currency := "eur", active := true }]
              (fun _ => .ok { id := "cs_9", url := none }) "wo7" "e"
              (some [{ productId := "zz", quantity := 4 }])
              { orders := [], paymentEvents := [] }).1.orders,
            o.id = "wo7" ∧ o.amountCents = 0 ∧ o.status = .PENDING) :=
  ⟨by decide, by decide,
   claim_C7_amended.2.2 ""
     [{ id := "q1", title := "mug", sku := "SKU9", priceCents := 250,
        currency := "eur", active := true }]
     (fun _ => .ok { id := "cs_9", url := none }) "wo7" "e"
     [{ productId := "zz", quantity := 4 }]
     { orders := [], paymentEvents := [] }
     (by decide) (by decide)⟩
